import Mathlib

/-!
Shallow embedding of the 5v5 Flag Football Stat Tracker (src/src/App.jsx).

The core logic embedded here:
- the data model (`Player`, `Game`, `StatEvent`, `PlayerStats`, `Store`);
- the rule configuration (`RULESET_CONFIG`);
- the aggregation engine `computeStats`, modelled as a fold of per-event
  updates over a finite map `String → Option PlayerStats` (the JS
  `Record<string, PlayerStats>`; `none` means the key is absent);
- the cascading `deletePlayer` state transition;
- the import/load document normalization (`loadStore` / `importJSON`),
  over a small JSON value model.

JS semantic details kept faithfully:
- `if (e.receiverId)` is a truthiness test: `undefined` and `""` are both
  falsy (`recvId`);
- `ensure(e.playerId)` runs before the `switch`, so a bucket is created
  for the primary player of every event, unknown event types included;
- `(g?.ruleSet as RuleSet) || "NFL_FLAG"` replaces only falsy values;
- `loadStore` wraps everything in try/catch, `importJSON` does not.
-/

/-- `type Player` from the source. -/
structure Player where
  id : String
  name : String
  jersey : Option String := none
  position : Option String := none
deriving DecidableEq, Repr

/-- `type RuleSet = "NEXT_LEVEL" | "NFL_FLAG" | "FARM_LEAGUE"`. -/
inductive RuleSet where
  | NEXT_LEVEL
  | NFL_FLAG
  | FARM_LEAGUE
deriving DecidableEq, Repr

/-- The event-type strings recognized by the `switch` in `computeStats`;
`UNKNOWN` stands for every other string (the `default:` branch). -/
inductive EvTag where
  | PASS_ATT
  | PASS_COMP
  | PASS_TD
  | INT_THROWN
  | RUSH_ATT
  | RUSH_TD
  | REC
  | REC_TD
  | DEF_INT
  | SACK
  | FLAG_PULL
  | DEF_TD
  | XP_1
  | XP_2
  | PAT_RET_2
  | UNKNOWN
deriving DecidableEq, Repr

/-- Dispatch of the `switch (e.type)` statement: which case a given
event-type string selects. -/
def parseType (t : String) : EvTag :=
  match t with
  | "PASS_ATT" => .PASS_ATT
  | "PASS_COMP" => .PASS_COMP
  | "PASS_TD" => .PASS_TD
  | "INT_THROWN" => .INT_THROWN
  | "RUSH_ATT" => .RUSH_ATT
  | "RUSH_TD" => .RUSH_TD
  | "REC" => .REC
  | "REC_TD" => .REC_TD
  | "DEF_INT" => .DEF_INT
  | "SACK" => .SACK
  | "FLAG_PULL" => .FLAG_PULL
  | "DEF_TD" => .DEF_TD
  | "XP_1" => .XP_1
  | "XP_2" => .XP_2
  | "PAT_RET_2" => .PAT_RET_2
  | _ => .UNKNOWN

/-- `type StatEvent` from the source. `type` is kept as a raw string so
that unknown/future event types are representable, as in the JS code. -/
structure StatEvent where
  id : String
  ts : Nat
  type : String
  playerId : String
  receiverId : Option String := none
  yards : Option Int := none
  note : Option String := none
deriving DecidableEq, Repr

/-- `type Game` from the source. -/
structure Game where
  id : String
  opponent : String
  dateISO : String
  ruleSet : RuleSet
  notes : Option String := none
  events : List StatEvent
deriving DecidableEq, Repr

/-- `type PlayerStats` from the source. The JS field `rec` is written
`rec'` because `rec` is reserved for the auto-generated recursor. -/
structure PlayerStats where
  passAtt : Nat
  passComp : Nat
  passTD : Nat
  intThrown : Nat
  rushAtt : Nat
  rushTD : Nat
  rec' : Nat
  recTD : Nat
  defInt : Nat
  sacks : Nat
  flagPulls : Nat
  defTD : Nat
  xp1 : Nat
  xp2 : Nat
  patRet2 : Nat
  points : Nat
deriving DecidableEq, Repr

/-- `emptyStats()`. -/
def emptyStats : PlayerStats :=
  { passAtt := 0, passComp := 0, passTD := 0, intThrown := 0
    rushAtt := 0, rushTD := 0, rec' := 0, recTD := 0
    defInt := 0, sacks := 0, flagPulls := 0, defTD := 0
    xp1 := 0, xp2 := 0, patRet2 := 0, points := 0 }

/-- `RULESET_CONFIG` entry shape. -/
structure RulesetConfig where
  allowPatReturn : Bool
  patReturnPoints : Nat
deriving DecidableEq, Repr

/-- `RULESET_CONFIG` from the source. -/
def RULESET_CONFIG : RuleSet → RulesetConfig
  | .NEXT_LEVEL => { allowPatReturn := false, patReturnPoints := 0 }
  | .NFL_FLAG => { allowPatReturn := false, patReturnPoints := 0 }
  | .FARM_LEAGUE => { allowPatReturn := true, patReturnPoints := 2 }

/-- The `byId` record of `computeStats`: a finite map from player id to
stats; `none` models an absent key. -/
def StatMap : Type := String → Option PlayerStats

/-- The `ensure` closure of `computeStats`: seed a zero bucket for `pid`
when the key is absent, otherwise leave the map unchanged. -/
def ensure (byId : StatMap) (pid : String) : StatMap :=
  fun k => if k = pid then some ((byId pid).getD emptyStats) else byId k

/-- In-place bucket mutation of an existing bucket (`s.passAtt += 1` etc. on the
object returned by `ensure`). -/
def modifyStat (byId : StatMap) (pid : String) (f : PlayerStats → PlayerStats) : StatMap :=
  fun k => if k = pid then (byId k).map f else byId k

/-- `if (e.receiverId)`: the receiver id, when present and truthy
(in JS, `undefined` and the empty string are falsy). -/
def recvId (e : StatEvent) : Option String :=
  match e.receiverId with
  | some r => if r = "" then none else some r
  | none => none

/-- One iteration of the `for (const e of events)` loop of `computeStats`:
`ensure(e.playerId)` followed by the `switch (e.type)` updates. -/
def applyEvent (byId : StatMap) (e : StatEvent) : StatMap :=
  let m := ensure byId e.playerId
  match parseType e.type with
  | .PASS_ATT =>
      modifyStat m e.playerId (fun s => { s with passAtt := s.passAtt + 1 })
  | .PASS_COMP =>
      let m := modifyStat m e.playerId (fun s =>
        { s with passAtt := s.passAtt + 1, passComp := s.passComp + 1 })
      match recvId e with
      | some r => modifyStat (ensure m r) r (fun s => { s with rec' := s.rec' + 1 })
      | none => m
  | .PASS_TD =>
      let m := modifyStat m e.playerId (fun s =>
        { s with passAtt := s.passAtt + 1, passComp := s.passComp + 1,
                 passTD := s.passTD + 1, points := s.points + 6 })
      match recvId e with
      | some r => modifyStat (ensure m r) r (fun s =>
          { s with rec' := s.rec' + 1, recTD := s.recTD + 1, points := s.points + 6 })
      | none => m
  | .INT_THROWN =>
      modifyStat m e.playerId (fun s =>
        { s with passAtt := s.passAtt + 1, intThrown := s.intThrown + 1 })
  | .RUSH_ATT =>
      modifyStat m e.playerId (fun s => { s with rushAtt := s.rushAtt + 1 })
  | .RUSH_TD =>
      modifyStat m e.playerId (fun s =>
        { s with rushAtt := s.rushAtt + 1, rushTD := s.rushTD + 1, points := s.points + 6 })
  | .REC =>
      modifyStat m e.playerId (fun s => { s with rec' := s.rec' + 1 })
  | .REC_TD =>
      modifyStat m e.playerId (fun s =>
        { s with rec' := s.rec' + 1, recTD := s.recTD + 1, points := s.points + 6 })
  | .DEF_INT =>
      modifyStat m e.playerId (fun s => { s with defInt := s.defInt + 1 })
  | .SACK =>
      modifyStat m e.playerId (fun s => { s with sacks := s.sacks + 1 })
  | .FLAG_PULL =>
      modifyStat m e.playerId (fun s => { s with flagPulls := s.flagPulls + 1 })
  | .DEF_TD =>
      modifyStat m e.playerId (fun s =>
        { s with defTD := s.defTD + 1, points := s.points + 6 })
  | .XP_1 =>
      modifyStat m e.playerId (fun s =>
        { s with xp1 := s.xp1 + 1, points := s.points + 1 })
  | .XP_2 =>
      modifyStat m e.playerId (fun s =>
        { s with xp2 := s.xp2 + 1, points := s.points + 2 })
  | .PAT_RET_2 =>
      modifyStat m e.playerId (fun s =>
        { s with patRet2 := s.patRet2 + 1, points := s.points + 2 })
  | .UNKNOWN => m

/-- Seeding loop `for (const p of players) byId[p.id] = emptyStats()`. -/
def seedRoster (players : List Player) : StatMap :=
  fun k => if (players.map Player.id).contains k then some emptyStats else none

/-- `computeStats(players, events)` from the source. -/
def computeStats (players : List Player) (events : List StatEvent) : StatMap :=
  events.foldl applyEvent (seedRoster players)

/-- `deletePlayer(id)` on the store: drop the player and filter, in every
game, the events where the id appears as `playerId` or `receiverId`. -/
structure Store where
  players : List Player
  games : List Game
  selectedGameId : Option String := none
deriving DecidableEq, Repr

/-- The `deletePlayer` state transition from the source. -/
def deletePlayer (id : String) (s : Store) : Store :=
  { s with
    players := s.players.filter (fun p => p.id ≠ id)
    games := s.games.map (fun g =>
      { g with events := g.events.filter (fun e => e.playerId ≠ id ∧ e.receiverId ≠ some id) }) }

/-- The `statsByPlayer` computation of the app: aggregation for one game
uses only the roster and that game's event list (not its rule-set). -/
def gameStats (players : List Player) (g : Game) : StatMap :=
  computeStats players g.events

/-! ### Specification-side definitions

These restate the §4.1 delta table per player, to be compared with the
aggregation engine above. -/

/-- Pointwise sum of two stat records. -/
def statAdd (a b : PlayerStats) : PlayerStats :=
  { passAtt := a.passAtt + b.passAtt, passComp := a.passComp + b.passComp
    passTD := a.passTD + b.passTD, intThrown := a.intThrown + b.intThrown
    rushAtt := a.rushAtt + b.rushAtt, rushTD := a.rushTD + b.rushTD
    rec' := a.rec' + b.rec', recTD := a.recTD + b.recTD
    defInt := a.defInt + b.defInt, sacks := a.sacks + b.sacks
    flagPulls := a.flagPulls + b.flagPulls, defTD := a.defTD + b.defTD
    xp1 := a.xp1 + b.xp1, xp2 := a.xp2 + b.xp2
    patRet2 := a.patRet2 + b.patRet2, points := a.points + b.points }

/-- §4.1 primary-actor delta of an event tag. -/
def primaryDelta : EvTag → PlayerStats
  | .PASS_ATT => { emptyStats with passAtt := 1 }
  | .PASS_COMP => { emptyStats with passAtt := 1, passComp := 1 }
  | .PASS_TD => { emptyStats with passAtt := 1, passComp := 1, passTD := 1, points := 6 }
  | .INT_THROWN => { emptyStats with passAtt := 1, intThrown := 1 }
  | .RUSH_ATT => { emptyStats with rushAtt := 1 }
  | .RUSH_TD => { emptyStats with rushAtt := 1, rushTD := 1, points := 6 }
  | .REC => { emptyStats with rec' := 1 }
  | .REC_TD => { emptyStats with rec' := 1, recTD := 1, points := 6 }
  | .DEF_INT => { emptyStats with defInt := 1 }
  | .SACK => { emptyStats with sacks := 1 }
  | .FLAG_PULL => { emptyStats with flagPulls := 1 }
  | .DEF_TD => { emptyStats with defTD := 1, points := 6 }
  | .XP_1 => { emptyStats with xp1 := 1, points := 1 }
  | .XP_2 => { emptyStats with xp2 := 1, points := 2 }
  | .PAT_RET_2 => { emptyStats with patRet2 := 1, points := 2 }
  | .UNKNOWN => emptyStats

/-- §4.1 secondary (receiver) delta of an event tag. -/
def secondaryDelta : EvTag → PlayerStats
  | .PASS_COMP => { emptyStats with rec' := 1 }
  | .PASS_TD => { emptyStats with rec' := 1, recTD := 1, points := 6 }
  | _ => emptyStats

/-- Whether event `e` receives a bucket for key `p` during aggregation:
as the primary actor (always ensured), or as a present receiver of a
pass-completion-family event. -/
def eventTouches (e : StatEvent) (p : String) : Bool :=
  p = e.playerId ||
    ((parseType e.type = .PASS_COMP || parseType e.type = .PASS_TD) && recvId e = some p)

/-- Total delta event `e` contributes to player `p`'s bucket (primary and
secondary roles combined). -/
def eventDelta (e : StatEvent) (p : String) : PlayerStats :=
  statAdd
    (if p = e.playerId then primaryDelta (parseType e.type) else emptyStats)
    (if (parseType e.type = .PASS_COMP || parseType e.type = .PASS_TD) && recvId e = some p
      then secondaryDelta (parseType e.type) else emptyStats)

/-- Sum of the deltas a list of events contributes to player `p`. -/
def sumDeltas (events : List StatEvent) (p : String) : PlayerStats :=
  events.foldr (fun e acc => statAdd (eventDelta e p) acc) emptyStats

/-! ### Pointwise characterization of the aggregation engine -/

theorem statAdd_empty_left (a : PlayerStats) : statAdd emptyStats a = a := by
  cases a; simp [statAdd, emptyStats]

theorem statAdd_empty_right (a : PlayerStats) : statAdd a emptyStats = a := by
  cases a; simp [statAdd, emptyStats]

theorem statAdd_assoc (a b c : PlayerStats) :
    statAdd (statAdd a b) c = statAdd a (statAdd b c) := by
  simp [statAdd, Nat.add_assoc]

theorem statAdd_comm (a b : PlayerStats) : statAdd a b = statAdd b a := by
  simp [statAdd, Nat.add_comm]

theorem sumDeltas_cons (e : StatEvent) (es : List StatEvent) (p : String) :
    sumDeltas (e :: es) p = statAdd (eventDelta e p) (sumDeltas es p) := rfl

theorem ensure_apply (m : StatMap) (pid k : String) :
    ensure m pid k = if k = pid then some ((m pid).getD emptyStats) else m k := rfl

theorem bump_apply (m : StatMap) (pid : String) (f : PlayerStats → PlayerStats) (k : String) :
    modifyStat (ensure m pid) pid f k
      = if k = pid then some (f ((m pid).getD emptyStats)) else m k := by
  by_cases hk : k = pid <;> simp [modifyStat, ensure, hk]

theorem bump2_apply (m : StatMap) (pid r : String) (f g : PlayerStats → PlayerStats)
    (k : String) :
    modifyStat (ensure (modifyStat (ensure m pid) pid f) r) r g k
      = if k = r
        then some (g (if r = pid then f ((m pid).getD emptyStats) else (m r).getD emptyStats))
        else if k = pid then some (f ((m pid).getD emptyStats)) else m k := by
  rw [bump_apply]
  by_cases hk : k = r
  · subst hk
    rw [if_pos rfl, bump_apply]
    by_cases hkp : k = pid <;> simp [hkp]
  · simp only [if_neg hk]
    rw [bump_apply]

/-- Pointwise effect of one loop iteration: the bucket of a touched key
grows by the event's delta (creating it from zero when absent); every
other key is untouched. -/
theorem applyEvent_apply (m : StatMap) (e : StatEvent) (p : String) :
    applyEvent m e p =
      if eventTouches e p
      then some (statAdd ((m p).getD emptyStats) (eventDelta e p))
      else m p := by
  cases ht : parseType e.type
  case PASS_COMP =>
    cases hr : recvId e
    case none =>
      simp only [applyEvent, ht, hr]
      rw [bump_apply]
      by_cases hp : p = e.playerId <;>
        simp [eventTouches, eventDelta, ht, hr, hp, statAdd, primaryDelta,
          secondaryDelta, emptyStats]
    case some r =>
      simp only [applyEvent, ht, hr]
      rw [bump2_apply]
      by_cases hpr : p = r <;> by_cases hp : p = e.playerId <;>
        by_cases hrp : r = e.playerId <;>
        simp_all [eventTouches, eventDelta, ht, statAdd, primaryDelta,
          secondaryDelta, emptyStats, @eq_comm String e.playerId p, @eq_comm String r p]
  case PASS_TD =>
    cases hr : recvId e
    case none =>
      simp only [applyEvent, ht, hr]
      rw [bump_apply]
      by_cases hp : p = e.playerId <;>
        simp [eventTouches, eventDelta, ht, hr, hp, statAdd, primaryDelta,
          secondaryDelta, emptyStats]
    case some r =>
      simp only [applyEvent, ht, hr]
      rw [bump2_apply]
      by_cases hpr : p = r <;> by_cases hp : p = e.playerId <;>
        by_cases hrp : r = e.playerId <;>
        simp_all [eventTouches, eventDelta, ht, statAdd, primaryDelta,
          secondaryDelta, emptyStats, @eq_comm String e.playerId p, @eq_comm String r p]
  case UNKNOWN =>
    simp only [applyEvent, ht]
    rw [ensure_apply]
    by_cases hp : p = e.playerId <;>
      simp [eventTouches, eventDelta, ht, hp, statAdd, primaryDelta,
        secondaryDelta, emptyStats]
  all_goals
    simp only [applyEvent, ht]
    rw [bump_apply]
    by_cases hp : p = e.playerId <;>
      simp [eventTouches, eventDelta, ht, hp, statAdd, primaryDelta,
        secondaryDelta, emptyStats]

theorem eventDelta_of_not_touched (e : StatEvent) (p : String)
    (h : eventTouches e p = false) : eventDelta e p = emptyStats := by
  simp only [eventTouches, Bool.or_eq_false_iff, decide_eq_false_iff_not] at h
  obtain ⟨h1, h2⟩ := h
  unfold eventDelta
  rw [if_neg h1, if_neg (by simp_all), statAdd_empty_left]

theorem sumDeltas_of_not_touched (es : List StatEvent) (p : String)
    (h : es.any (fun e => eventTouches e p) = false) : sumDeltas es p = emptyStats := by
  induction es with
  | nil => rfl
  | cons e es ih =>
    simp only [List.any_cons, Bool.or_eq_false_iff] at h
    rw [sumDeltas_cons, eventDelta_of_not_touched e p h.1, ih h.2, statAdd_empty_left]

theorem foldl_applyEvent_apply (es : List StatEvent) (m : StatMap) (p : String) :
    es.foldl applyEvent m p =
      if es.any (fun e => eventTouches e p)
      then some (statAdd ((m p).getD emptyStats) (sumDeltas es p))
      else m p := by
  induction es generalizing m with
  | nil => simp [sumDeltas]
  | cons e es ih =>
    simp only [List.foldl_cons, List.any_cons]
    rw [ih, applyEvent_apply]
    by_cases h1 : eventTouches e p <;> by_cases h2 : es.any (fun e => eventTouches e p) <;>
      simp only [h1, h2, if_true, if_false, Bool.true_or, Bool.false_or, Bool.or_false,
        Bool.or_self, Bool.false_eq_true, sumDeltas_cons, Option.getD_some]
    · rw [statAdd_assoc]
    · rw [sumDeltas_of_not_touched es p (by simp [h2]), statAdd_empty_right]
    · rw [eventDelta_of_not_touched e p (by simp [h1]), statAdd_empty_left]

/-- Master characterization of `computeStats`: a key is present exactly
when it is a roster id or is touched by some event, and its bucket is the
sum of the per-event deltas of §4.1. -/
theorem computeStats_apply (players : List Player) (events : List StatEvent) (p : String) :
    computeStats players events p =
      if (players.map Player.id).contains p || events.any (fun e => eventTouches e p)
      then some (sumDeltas events p)
      else none := by
  unfold computeStats
  rw [foldl_applyEvent_apply]
  have hseed : (seedRoster players p).getD emptyStats = emptyStats := by
    unfold seedRoster; split <;> rfl
  rw [hseed, statAdd_empty_left]
  by_cases ha : events.any (fun e => eventTouches e p)
  · simp [ha]
  · simp only [ha, Bool.or_false, if_false]
    rw [sumDeltas_of_not_touched events p (by simp [ha])]
    unfold seedRoster
    rfl

/-! ### Point accounting (§4.1 table) -/

/-- The primary actor's point contribution of each event type, per the
§4.1 table. -/
def primaryPoints : EvTag → Nat
  | .PASS_TD => 6
  | .RUSH_TD => 6
  | .REC_TD => 6
  | .DEF_TD => 6
  | .XP_1 => 1
  | .XP_2 => 2
  | .PAT_RET_2 => 2
  | _ => 0

/-- Points event `e` credits to player `p`: the primary contribution when
`p` is the credited actor, plus 6 when `p` is the present receiver of a
PASS_TD. -/
def pointsCredit (e : StatEvent) (p : String) : Nat :=
  (if p = e.playerId then primaryPoints (parseType e.type) else 0) +
  (if parseType e.type = .PASS_TD ∧ recvId e = some p then 6 else 0)

/-- The declared total point contribution of one event from the §4.1
table: its primary points, plus 6 for the receiver of a PASS_TD when a
receiver is present. -/
def declaredPoints (e : StatEvent) : Nat :=
  primaryPoints (parseType e.type) +
  (if parseType e.type = .PASS_TD ∧ (recvId e).isSome then 6 else 0)

theorem statAdd_points (a b : PlayerStats) :
    (statAdd a b).points = a.points + b.points := rfl

theorem eventDelta_points (e : StatEvent) (p : String) :
    (eventDelta e p).points = pointsCredit e p := by
  unfold eventDelta pointsCredit
  rw [statAdd_points, apply_ite PlayerStats.points, apply_ite PlayerStats.points]
  cases ht : parseType e.type <;>
    simp [ht, primaryDelta, secondaryDelta, primaryPoints, emptyStats]

theorem sumDeltas_points (es : List StatEvent) (p : String) :
    (sumDeltas es p).points = (es.map (fun e => pointsCredit e p)).sum := by
  induction es with
  | nil => rfl
  | cons e es ih =>
    rw [sumDeltas_cons, statAdd_points, eventDelta_points, ih, List.map_cons, List.sum_cons]

theorem pointsCredit_of_not_touched (e : StatEvent) (p : String)
    (h : eventTouches e p = false) : pointsCredit e p = 0 := by
  rw [← eventDelta_points, eventDelta_of_not_touched e p h]
  rfl

/-! ### Elementary summation lemmas -/

theorem sum_map_add {α : Type} (l : List α) (f g : α → Nat) :
    (l.map (fun x => f x + g x)).sum = (l.map f).sum + (l.map g).sum := by
  induction l with
  | nil => rfl
  | cons x l ih => simp [ih]; omega

theorem sum_map_zero {β : Type} (M : List β) : (M.map (fun _ => (0 : Nat))).sum = 0 := by
  induction M with
  | nil => rfl
  | cons b M ih => simp [ih]

theorem sum_map_swap {α β : Type} (L : List α) (M : List β) (f : α → β → Nat) :
    (L.map (fun a => (M.map (f a)).sum)).sum
      = (M.map (fun b => (L.map (fun a => f a b)).sum)).sum := by
  induction L with
  | nil =>
    simp only [List.map_nil, List.sum_nil]
    exact (sum_map_zero M).symm
  | cons a L ihL =>
    simp only [List.map_cons, List.sum_cons, ihL]
    rw [sum_map_add]

theorem sum_if_zero (L : List String) (a : String) (ha : a ∉ L) (c : Nat) :
    (L.map (fun p => if p = a then c else 0)).sum = 0 := by
  induction L with
  | nil => rfl
  | cons b L ih =>
    simp only [List.mem_cons, not_or] at ha
    simp [Ne.symm ha.1, ih ha.2]

theorem sum_if_mem (L : List String) (hL : L.Nodup) (a : String) (ha : a ∈ L) (c : Nat) :
    (L.map (fun p => if p = a then c else 0)).sum = c := by
  induction L with
  | nil => cases ha
  | cons b L ih =>
    rw [List.nodup_cons] at hL
    rcases List.mem_cons.mp ha with hb | hb
    · subst hb
      simp [sum_if_zero L a hL.1 c]
    · have hba : ¬b = a := fun h => hL.1 (h ▸ hb)
      simp [hba, ih hL.2 hb]

/-! ### Import/load boundary (`loadStore`, `importJSON`)

The parsed document is a loose JSON value; the TS code casts and guards
its shape field by field. JS semantics modelled: member access on `null`
throws; member access on any other non-object yields `undefined`
(`none`); `x || d` replaces falsy values only; `x ?? d` replaces
null/undefined only. -/

/-- JSON value model for the parse result of an imported document. -/
inductive JValue where
  | null
  | bool (b : Bool)
  | num (n : Int)
  | str (s : String)
  | arr (elems : List JValue)
  | obj (fields : List (String × JValue))

/-- Whether a value is an object. -/
def JValue.isObj : JValue → Bool
  | .obj _ => true
  | _ => false

/-- JS member access `v.k`: `error` is the TypeError on `null`; `none` is
`undefined`. Duplicate keys resolve to the last occurrence, as in JS. -/
def jGet : JValue → String → Except Unit (Option JValue)
  | .null, _ => .error ()
  | .obj fs, k => .ok ((fs.reverse.find? (fun f => f.1 = k)).map Prod.snd)
  | _, _ => .ok none

/-- JS optional chaining `v?.k`: as `jGet` but `null` yields `undefined`
instead of throwing. -/
def jGetOpt (v : JValue) (k : String) : Option JValue :=
  match v with
  | .obj fs => (fs.reverse.find? (fun f => f.1 = k)).map Prod.snd
  | _ => none

/-- JS truthiness of a possibly-undefined value. -/
def truthy : Option JValue → Bool
  | none => false
  | some .null => false
  | some (.bool b) => b
  | some (.num n) => n != 0
  | some (.str s) => s != ""
  | some (.arr _) => true
  | some (.obj _) => true

/-- `Array.isArray(x) ? x : ⊥`. -/
def asArray : Option JValue → Option (List JValue)
  | some (.arr xs) => some xs
  | _ => none

/-- JS object spread `{...g}`: an object contributes its fields; arrays
and strings contribute index-keyed elements; other primitives contribute
nothing. -/
def spreadFields : JValue → List (String × JValue)
  | .obj fs => fs
  | .arr xs => xs.enum.map (fun x => (toString x.1, x.2))
  | .str s => s.toList.enum.map (fun c => (toString c.1, JValue.str (String.mk [c.2])))
  | _ => []

/-- `{...g, ruleSet: (g?.ruleSet as RuleSet) || "NFL_FLAG", events:
Array.isArray(g?.events) ? g.events : []}`. The overriding fields are
appended; lookups resolve to the last occurrence, matching JS override
semantics. -/
def normalizeGame (g : JValue) : JValue :=
  let rs := if truthy (jGetOpt g "ruleSet")
    then (jGetOpt g "ruleSet").getD .null else .str "NFL_FLAG"
  let ev := JValue.arr ((asArray (jGetOpt g "events")).getD [])
  .obj (spreadFields g ++ [("ruleSet", rs), ("events", ev)])

/-- The store value produced by the import/load boundary. The TS code
casts without validating, so the elements stay raw JSON values. -/
structure RawStore where
  players : List JValue
  games : List JValue
  ui : JValue

/-- `{ players: [], games: [], ui: {} }`. -/
def emptyRawStore : RawStore := { players := [], games := [], ui := .obj [] }

/-- The shared body of `loadStore`/`importJSON`: the basic shape guards
over the parsed document. -/
def normalizeStore (parsed : JValue) : Except Unit RawStore := do
  let pv ← jGet parsed "players"
  let gv ← jGet parsed "games"
  let uv ← jGet parsed "ui"
  pure
    { players := (asArray pv).getD []
      games := ((asArray gv).getD []).map normalizeGame
      ui := match uv with
        | some .null => .obj []
        | some v => v
        | none => .obj [] }

/-- `loadStore()`: `none` models a missing stored value, `Except.error`
models a `JSON.parse` throw; the surrounding try/catch maps every failure
to the empty store. -/
def loadStore (raw : Option (Except Unit JValue)) : RawStore :=
  match raw with
  | none => emptyRawStore
  | some (.error _) => emptyRawStore
  | some (.ok parsed) =>
      match normalizeStore parsed with
      | .ok s => s
      | .error _ => emptyRawStore

/-- `importJSON(file)`: the same normalization, but with no try/catch —
a failure propagates to the caller as a rejected promise. -/
def importJSON (parsed : Except Unit JValue) : Except Unit RawStore := do
  let v ← parsed
  normalizeStore v

/-! ### Shared helper lemmas for the claims -/

theorem computeStats_getD_points (players : List Player) (events : List StatEvent)
    (p : String) :
    ((computeStats players events p).getD emptyStats).points
      = (events.map (fun e => pointsCredit e p)).sum := by
  rw [computeStats_apply]
  by_cases h : ((players.map Player.id).contains p
      || events.any (fun e => eventTouches e p)) = true
  · rw [if_pos h, Option.getD_some, sumDeltas_points]
  · rw [if_neg h]
    simp only [Bool.or_eq_true, not_or] at h
    have hany : events.any (fun e => eventTouches e p) = false :=
      Bool.not_eq_true _ ▸ eq_false_of_ne_true h.2
    rw [← sumDeltas_points, sumDeltas_of_not_touched events p hany]
    rfl

theorem sum_pointsCredit (e : StatEvent) (L : List String) (hN : L.Nodup)
    (hpl : e.playerId ∈ L) (hrc : ∀ r, recvId e = some r → r ∈ L) :
    (L.map (fun p => pointsCredit e p)).sum = declaredPoints e := by
  unfold pointsCredit declaredPoints
  rw [sum_map_add, sum_if_mem L hN e.playerId hpl]
  congr 1
  by_cases htd : parseType e.type = EvTag.PASS_TD
  · cases hrv : recvId e with
    | none => simp [htd, hrv, sum_map_zero]
    | some r =>
      simp only [htd, hrv, Option.some.injEq, Option.isSome_some, true_and, and_true,
        if_true]
      rw [show (fun p => if r = p then (6 : Nat) else 0)
          = (fun p => if p = r then (6 : Nat) else 0) by
        funext p; simp only [@eq_comm String p r]]
      exact sum_if_mem L hN r (hrc r hrv) 6
  · simp [htd, sum_map_zero]

/-- A key absent from the roster and untouched by every event gets no
bucket. -/
theorem computeStats_support (players : List Player) (events : List StatEvent) (p : String)
    (hroster : (players.map Player.id).contains p = false)
    (hev : events.any (fun e => eventTouches e p) = false) :
    computeStats players events p = none := by
  rw [computeStats_apply, hroster, hev]
  rfl

theorem recvId_receiverId (e : StatEvent) (r : String) (h : recvId e = some r) :
    e.receiverId = some r := by
  unfold recvId at h
  cases hrc : e.receiverId with
  | none => simp only [hrc] at h; exact h
  | some q =>
    simp only [hrc] at h
    by_cases hq : q = ""
    · rw [if_pos hq] at h; cases h
    · rw [if_neg hq] at h
      exact h

theorem any_perm {l1 l2 : List StatEvent} (h : l1.Perm l2) (f : StatEvent → Bool) :
    l1.any f = l2.any f := by
  rw [Bool.eq_iff_iff]
  simp only [List.any_eq_true]
  constructor
  · rintro ⟨x, hx, hf⟩; exact ⟨x, h.mem_iff.mp hx, hf⟩
  · rintro ⟨x, hx, hf⟩; exact ⟨x, h.mem_iff.mpr hx, hf⟩

theorem sumDeltas_perm {es es' : List StatEvent} (h : es.Perm es') (p : String) :
    sumDeltas es p = sumDeltas es' p := by
  induction h with
  | nil => rfl
  | cons x h ih => rw [sumDeltas_cons, sumDeltas_cons, ih]
  | swap x y l =>
    rw [sumDeltas_cons, sumDeltas_cons, sumDeltas_cons, sumDeltas_cons,
      ← statAdd_assoc, ← statAdd_assoc, statAdd_comm (eventDelta y p) (eventDelta x p)]
  | trans h1 h2 ih1 ih2 => rw [ih1, ih2]

/-! ### Concrete fixtures used by scenario claims and witnesses -/

/-- PASS_TD credited to passer A with receiver B. -/
def evPassTD_AB : StatEvent :=
  { id := "e1", ts := 0, type := "PASS_TD", playerId := "A", receiverId := some "B" }

/-- XP_2 credited to A. -/
def evXP2_A : StatEvent := { id := "e2", ts := 1, type := "XP_2", playerId := "A" }

/-- RUSH_ATT credited to an id absent from every roster used below. -/
def evGhostRush : StatEvent := { id := "e3", ts := 2, type := "RUSH_ATT", playerId := "ghost" }

/-- PAT_RET_2 credited to C. -/
def evPatRet_C : StatEvent := { id := "e4", ts := 3, type := "PAT_RET_2", playerId := "C" }

/-- An event with a type outside the 14 enumerated tags. -/
def evUnknown_X : StatEvent := { id := "e5", ts := 4, type := "TIMEOUT", playerId := "x" }

/-- PASS_COMP with no receiver recorded. -/
def evCompNoRecv : StatEvent := { id := "e6", ts := 5, type := "PASS_COMP", playerId := "Q" }

/-- A self-targeted PASS_TD: the passer is also the receiver. -/
def evSelfTD : StatEvent :=
  { id := "e7", ts := 6, type := "PASS_TD", playerId := "S", receiverId := some "S" }

/-- Roster [A, B]. -/
def rosterAB : List Player := [{ id := "A", name := "A" }, { id := "B", name := "B" }]

/-- The everywhere-absent stat map. -/
def mEmpty : StatMap := fun _ => none

/-! ### Claims -/

/-- C1: for every roster and event list, each player's `points` in the
`computeStats` result equals the sum of the §4.1 point credits of the
events crediting that player (6 per PASS_TD as passer and as present
receiver, 6 per RUSH_TD/REC_TD/DEF_TD, 1 per XP_1, 2 per XP_2 and
PAT_RET_2); consequently, summing over any duplicate-free key list that
covers every credited player, the total equals the sum of each event's
declared point contribution — no double counting, no omission. -/
theorem c1_points_invariant_and_conservation (players : List Player)
    (events : List StatEvent) :
    (∀ p : String,
      ((computeStats players events p).getD emptyStats).points
        = (events.map (fun e => pointsCredit e p)).sum)
    ∧ (∀ L : List String, L.Nodup →
        (∀ e ∈ events, e.playerId ∈ L ∧ ∀ r, recvId e = some r → r ∈ L) →
        (L.map (fun p => ((computeStats players events p).getD emptyStats).points)).sum
          = (events.map declaredPoints).sum) := by
  refine ⟨computeStats_getD_points players events, ?_⟩
  intro L hN hCover
  calc (L.map (fun p => ((computeStats players events p).getD emptyStats).points)).sum
      = (L.map (fun p => (events.map (fun e => pointsCredit e p)).sum)).sum := by
        rw [show (fun p => ((computeStats players events p).getD emptyStats).points)
            = (fun p => (events.map (fun e => pointsCredit e p)).sum) by
          funext p; exact computeStats_getD_points players events p]
    _ = (events.map (fun e => (L.map (fun p => pointsCredit e p)).sum)).sum :=
        sum_map_swap L events (fun p e => pointsCredit e p)
    _ = (events.map declaredPoints).sum := by
        rw [List.map_congr_left (fun e he =>
          sum_pointsCredit e L hN (hCover e he).1 (hCover e he).2)]

/-- Witness for C1: the conservation identity at the concrete log
[PASS_TD(A→B), XP_2(A)] over the key list [A, B]. -/
theorem c1_witness :
    (["A", "B"].map (fun p =>
        ((computeStats rosterAB [evPassTD_AB, evXP2_A] p).getD emptyStats).points)).sum
      = ([evPassTD_AB, evXP2_A].map declaredPoints).sum :=
  (c1_points_invariant_and_conservation rosterAB [evPassTD_AB, evXP2_A]).2 ["A", "B"]
    (by decide)
    (by
      intro e he
      cases he with
      | head =>
        refine ⟨by decide, fun r hr => ?_⟩
        have h1 : recvId evPassTD_AB = some "B" := rfl
        rw [h1] at hr
        have h2 : "B" = r := Option.some.inj hr
        rw [← h2]; decide
      | tail _ he2 =>
        cases he2 with
        | head =>
          refine ⟨by decide, fun r hr => ?_⟩
          have h1 : recvId evXP2_A = none := rfl
          rw [h1] at hr
          cases hr
        | tail _ he3 => cases he3)

/-- C2 counterexample: in the log [PASS_TD(A→B), XP_2(A)], the XP_2 event
also increments A's 2-point-conversion counter, so A's bucket is not the
claimed record whose non-listed counters are all zero: its xp2 field is 1. -/
theorem c2_counterexample :
    computeStats rosterAB [evPassTD_AB, evXP2_A] "A"
        ≠ some { emptyStats with passAtt := 1, passComp := 1, passTD := 1, points := 8 }
    ∧ ((computeStats rosterAB [evPassTD_AB, evXP2_A] "A").getD emptyStats).xp2 = 1 := by
  constructor
  · decide
  · rfl

/-- C2 amended: for the log [PASS_TD(A→B), XP_2(A)], A's stats are
exactly {passAtt 1, passComp 1, passTD 1, xp2 1, points 8} and B's
exactly {rec 1, recTD 1, points 6}, all other counters zero; and a
pass-completion-family event whose receiverId is absent applies only the
primary delta, leaving every other bucket unchanged (no error). -/
theorem c2_scenario_and_absent_receiver_skip :
    computeStats rosterAB [evPassTD_AB, evXP2_A] "A"
        = some { emptyStats with
            passAtt := 1, passComp := 1, passTD := 1, xp2 := 1, points := 8 }
    ∧ computeStats rosterAB [evPassTD_AB, evXP2_A] "B"
        = some { emptyStats with rec' := 1, recTD := 1, points := 6 }
    ∧ ∀ (m : StatMap) (e : StatEvent),
        (parseType e.type = .PASS_COMP ∨ parseType e.type = .PASS_TD) →
        e.receiverId = none →
        applyEvent m e e.playerId
            = some (statAdd ((m e.playerId).getD emptyStats) (primaryDelta (parseType e.type)))
        ∧ ∀ q : String, q ≠ e.playerId → applyEvent m e q = m q := by
  refine ⟨by rfl, by rfl, ?_⟩
  intro m e _ hrecv
  have hrv : recvId e = none := by unfold recvId; rw [hrecv]
  constructor
  · rw [applyEvent_apply]
    have htouch : eventTouches e e.playerId = true := by simp [eventTouches]
    rw [if_pos htouch]
    congr 2
    unfold eventDelta
    rw [if_pos rfl]
    simp [hrv, statAdd_empty_right]
  · intro q hq
    rw [applyEvent_apply]
    have htouch : eventTouches e q = false := by simp [eventTouches, hq, hrv]
    simp [htouch]

/-- Witness for C2's receiver-absent contract at a concrete
PASS_COMP event and the empty map. -/
theorem c2_witness :
    applyEvent mEmpty evCompNoRecv evCompNoRecv.playerId
        = some (statAdd ((mEmpty evCompNoRecv.playerId).getD emptyStats)
            (primaryDelta (parseType evCompNoRecv.type)))
    ∧ ∀ q : String, q ≠ evCompNoRecv.playerId → applyEvent mEmpty evCompNoRecv q = mEmpty q :=
  c2_scenario_and_absent_receiver_skip.2.2 mEmpty evCompNoRecv (Or.inl rfl) rfl

/-- C3: `computeStats` is order-independent — permuting the event list
yields the identical per-player statistics mapping. -/
theorem c3_computeStats_perm_invariant (players : List Player)
    (es es' : List StatEvent) (h : es.Perm es') :
    computeStats players es = computeStats players es' := by
  funext p
  rw [computeStats_apply, computeStats_apply, any_perm h (fun e => eventTouches e p),
    sumDeltas_perm h p]

/-- Witness for C3 at a concrete two-event log and its transposition. -/
theorem c3_witness :
    computeStats rosterAB [evPassTD_AB, evXP2_A] = computeStats rosterAB [evXP2_A, evPassTD_AB] :=
  c3_computeStats_perm_invariant rosterAB _ _ (List.Perm.swap evXP2_A evPassTD_AB [])

/-- C4: aggregation never fails on dangling references — every id touched
by some event gets a bucket, and for the log [RUSH_ATT("ghost")] with
"ghost" absent from the roster the result has a "ghost" bucket with
rushAtt 1 and every other counter zero. -/
theorem c4_dangling_reference_bucket (players : List Player) (events : List StatEvent) :
    (∀ p : String, (∃ e ∈ events, eventTouches e p = true) →
      (computeStats players events p).isSome = true)
    ∧ (∀ players' : List Player, "ghost" ∉ players'.map Player.id →
        computeStats players' [evGhostRush] "ghost"
          = some { emptyStats with rushAtt := 1 }) := by
  constructor
  · intro p hp
    rw [computeStats_apply]
    have hany : events.any (fun e => eventTouches e p) = true := List.any_eq_true.mpr hp
    rw [hany, Bool.or_true, if_pos rfl]
    rfl
  · intro players' _
    rw [computeStats_apply]
    have hany : [evGhostRush].any (fun e => eventTouches e "ghost") = true := rfl
    rw [hany, Bool.or_true, if_pos rfl]
    rfl

/-- Witness for C4 at the empty roster and the ghost rush log. -/
theorem c4_witness :
    (computeStats [] [evGhostRush] "ghost").isSome = true
    ∧ computeStats [] [evGhostRush] "ghost" = some { emptyStats with rushAtt := 1 } :=
  ⟨(c4_dangling_reference_bucket [] [evGhostRush]).1 "ghost"
      ⟨evGhostRush, List.mem_cons_self evGhostRush [], rfl⟩,
    (c4_dangling_reference_bucket [] [evGhostRush]).2 [] (fun h => List.not_mem_nil _ h)⟩

/-- C5: deleting player X removes X from the roster and every event in
every game where X is the playerId or the receiverId, and aggregation
over any remaining game afterwards yields no bucket keyed X. -/
theorem c5_deletePlayer_cascade (s : Store) (x : String) :
    (∀ p ∈ (deletePlayer x s).players, p.id ≠ x)
    ∧ (∀ g ∈ (deletePlayer x s).games, ∀ e ∈ g.events,
        e.playerId ≠ x ∧ e.receiverId ≠ some x)
    ∧ (∀ g ∈ (deletePlayer x s).games,
        computeStats (deletePlayer x s).players g.events x = none) := by
  have hpl : ∀ p ∈ (deletePlayer x s).players, p.id ≠ x := by
    intro p hp
    unfold deletePlayer at hp
    simp only [List.mem_filter, decide_eq_true_eq] at hp
    exact hp.2
  have hev : ∀ g ∈ (deletePlayer x s).games, ∀ e ∈ g.events,
      e.playerId ≠ x ∧ e.receiverId ≠ some x := by
    intro g hg e he
    unfold deletePlayer at hg
    simp only [List.mem_map] at hg
    obtain ⟨g0, _, rfl⟩ := hg
    simp only [List.mem_filter, Bool.and_eq_true, decide_eq_true_eq] at he
    exact he.2
  refine ⟨hpl, hev, ?_⟩
  intro g hg
  apply computeStats_support
  · have hx : x ∉ (deletePlayer x s).players.map Player.id := by
      intro hx
      obtain ⟨p, hp, hpx⟩ := List.mem_map.mp hx
      exact hpl p hp hpx
    simp [hx]
  · simp only [List.any_eq_false]
    intro e he
    have h1 := (hev g hg e he).1
    have h2 := (hev g hg e he).2
    simp [eventTouches, Ne.symm h1,
      show recvId e ≠ some x from fun hrv => h2 (recvId_receiverId e x hrv)]

/-- A concrete store for the C5 witness: roster [A, B] and one game whose
log is [PASS_TD(A→B), XP_2(A)]. -/
def storeAB : Store :=
  { players := rosterAB
    games := [{ id := "g1", opponent := "Tigers", dateISO := "2026-01-01",
                ruleSet := .NFL_FLAG, events := [evPassTD_AB, evXP2_A] }] }

/-- Witness for C5: after deleting B from `storeAB`, aggregating the
remaining game yields no bucket for B. -/
theorem c5_witness :
    computeStats (deletePlayer "B" storeAB).players
      ({ id := "g1", opponent := "Tigers", dateISO := "2026-01-01",
         ruleSet := RuleSet.NFL_FLAG, events := [evXP2_A] } : Game).events "B" = none :=
  (c5_deletePlayer_cascade storeAB "B").2.2 _ (List.mem_cons_self _ _)

/-! ### C6: import/load defaulting -/

/-- The malformed document for C6: its game carries the truthy but
invalid ruleSet string "BOGUS". -/
def bogusDoc : JValue :=
  .obj [("players", .arr []),
        ("games", .arr [.obj [("ruleSet", .str "BOGUS"), ("events", .arr [])]]),
        ("ui", .obj [])]

/-- C6 counterexample: loading a document whose game has an invalid but
truthy ruleSet keeps "BOGUS" instead of replacing it with NFL_FLAG (the
code tests only falsiness, it never validates); and importJSON, which
has no catch, propagates a failure for a null top-level document instead
of degrading to the empty store. -/
theorem c6_counterexample :
    ((loadStore (some (.ok bogusDoc))).games.map (fun g => jGetOpt g "ruleSet"))
        = [some (.str "BOGUS")]
    ∧ importJSON (.ok .null) = .error () := ⟨rfl, rfl⟩

theorem jGetOpt_obj_append_pair (fs : List (String × JValue)) (k1 k2 : String)
    (v1 v2 : JValue) (hk : k2 ≠ k1) :
    jGetOpt (.obj (fs ++ [(k1, v1), (k2, v2)])) k1 = some v1
    ∧ jGetOpt (.obj (fs ++ [(k1, v1), (k2, v2)])) k2 = some v2 := by
  simp only [jGetOpt]
  rw [List.reverse_append]
  rw [show ([(k1, v1), (k2, v2)]).reverse = [(k2, v2), (k1, v1)] from rfl]
  simp only [List.cons_append, List.nil_append]
  constructor
  · rw [List.find?_cons_of_neg _ (by simp [hk]), List.find?_cons_of_pos _ (by simp)]
    rfl
  · rw [List.find?_cons_of_pos _ (by simp)]
    rfl

theorem jGetOpt_normalizeGame_ruleSet (g : JValue) :
    jGetOpt (normalizeGame g) "ruleSet"
      = some (if truthy (jGetOpt g "ruleSet")
          then (jGetOpt g "ruleSet").getD .null else .str "NFL_FLAG") :=
  (jGetOpt_obj_append_pair (spreadFields g) "ruleSet" "events"
    (if truthy (jGetOpt g "ruleSet")
      then (jGetOpt g "ruleSet").getD .null else .str "NFL_FLAG")
    (.arr ((asArray (jGetOpt g "events")).getD [])) (by decide)).1

theorem jGetOpt_normalizeGame_events (g : JValue) :
    jGetOpt (normalizeGame g) "events"
      = some (.arr ((asArray (jGetOpt g "events")).getD [])) :=
  (jGetOpt_obj_append_pair (spreadFields g) "ruleSet" "events"
    (if truthy (jGetOpt g "ruleSet")
      then (jGetOpt g "ruleSet").getD .null else .str "NFL_FLAG")
    (.arr ((asArray (jGetOpt g "events")).getD [])) (by decide)).2

/-- C6 amended: the import/load boundary is defensive field by field —
a missing or falsy ruleSet defaults to NFL_FLAG, but a truthy value is
kept verbatim even when invalid; a non-array events field defaults to
[]; non-array players/games default to []; any non-object top-level
yields the empty store under loadStore (null included, via its catch),
as do a missing raw value and a parse failure; importJSON, having no
catch, yields the empty store only for non-null non-object top-levels
(and an error for null, per the counterexample). -/
theorem c6_amended_defaulting :
    (∀ g : JValue, truthy (jGetOpt g "ruleSet") = false →
        jGetOpt (normalizeGame g) "ruleSet" = some (.str "NFL_FLAG"))
    ∧ (∀ g : JValue, truthy (jGetOpt g "ruleSet") = true →
        jGetOpt (normalizeGame g) "ruleSet" = jGetOpt g "ruleSet")
    ∧ (∀ g : JValue, asArray (jGetOpt g "events") = none →
        jGetOpt (normalizeGame g) "events" = some (.arr []))
    ∧ (∀ fs : List (String × JValue), asArray (jGetOpt (.obj fs) "players") = none →
        (loadStore (some (.ok (.obj fs)))).players = [])
    ∧ (∀ fs : List (String × JValue), asArray (jGetOpt (.obj fs) "games") = none →
        (loadStore (some (.ok (.obj fs)))).games = [])
    ∧ (∀ v : JValue, v.isObj = false → loadStore (some (.ok v)) = emptyRawStore)
    ∧ loadStore none = emptyRawStore
    ∧ loadStore (some (.error ())) = emptyRawStore
    ∧ (∀ v : JValue, v.isObj = false → v ≠ .null → importJSON (.ok v) = .ok emptyRawStore) := by
  refine ⟨?_, ?_, ?_, ?_, ?_, ?_, rfl, rfl, ?_⟩
  · intro g h
    rw [jGetOpt_normalizeGame_ruleSet, h]
    rfl
  · intro g h
    rw [jGetOpt_normalizeGame_ruleSet, if_pos h]
    cases hv : jGetOpt g "ruleSet" with
    | none => rw [hv] at h; exact absurd h (by decide)
    | some v => rfl
  · intro g h
    rw [jGetOpt_normalizeGame_events, h]
    rfl
  · intro fs h
    show (asArray (jGetOpt (.obj fs) "players")).getD [] = []
    rw [h]
    rfl
  · intro fs h
    show ((asArray (jGetOpt (.obj fs) "games")).getD []).map normalizeGame = []
    rw [h]
    rfl
  · intro v h
    cases v with
    | null => rfl
    | bool b => rfl
    | num n => rfl
    | str s => rfl
    | arr xs => rfl
    | obj fs => simp [JValue.isObj] at h
  · intro v h hnull
    cases v with
    | null => exact absurd rfl hnull
    | bool b => rfl
    | num n => rfl
    | str s => rfl
    | arr xs => rfl
    | obj fs => simp [JValue.isObj] at h

/-- Witness for C6 amended: a game object with no ruleSet field gets
NFL_FLAG, and a numeric top-level document degrades to the empty store. -/
theorem c6_witness :
    jGetOpt (normalizeGame (.obj [])) "ruleSet" = some (.str "NFL_FLAG")
    ∧ loadStore (some (.ok (.num 7))) = emptyRawStore :=
  ⟨c6_amended_defaulting.1 (.obj []) rfl,
    c6_amended_defaulting.2.2.2.2.2.1 (.num 7) rfl⟩

/-! ### C7: configured PAT-return points vs engine delta -/

/-- C7 counterexample: under NEXT_LEVEL the configured patReturnPoints is
0, yet aggregating a PAT_RET_2 event adds 2 points to the player. -/
theorem c7_counterexample :
    (RULESET_CONFIG .NEXT_LEVEL).patReturnPoints = 0
    ∧ ((computeStats [] [evPatRet_C] "C").getD emptyStats).points = 2 := ⟨rfl, rfl⟩

/-- C7 amended: for every rule-set variant whose allowPatReturn flag is
set (exactly those exposing the PAT-return control), the configured
patReturnPoints equals the number of points the engine adds to the
credited player when a PAT_RET_2 event is aggregated. -/
theorem c7_patreturn_config_matches_engine (rs : RuleSet)
    (h : (RULESET_CONFIG rs).allowPatReturn = true)
    (m : StatMap) (e : StatEvent) (p : String)
    (ht : parseType e.type = .PAT_RET_2) (hp : p = e.playerId) :
    ((applyEvent m e p).getD emptyStats).points
      = ((m p).getD emptyStats).points + (RULESET_CONFIG rs).patReturnPoints := by
  cases rs
  · cases h
  · cases h
  · rw [applyEvent_apply]
    have htouch : eventTouches e p = true := by simp [eventTouches, hp]
    rw [if_pos htouch, Option.getD_some, statAdd_points, eventDelta_points]
    unfold pointsCredit
    rw [if_pos hp, ht]
    simp [primaryPoints, RULESET_CONFIG]

/-- Witness for C7 amended at FARM_LEAGUE and a concrete PAT_RET_2. -/
theorem c7_witness :
    ((applyEvent mEmpty evPatRet_C "C").getD emptyStats).points
      = ((mEmpty "C").getD emptyStats).points + (RULESET_CONFIG .FARM_LEAGUE).patReturnPoints :=
  c7_patreturn_config_matches_engine .FARM_LEAGUE rfl mEmpty evPatRet_C "C" rfl rfl

/-! ### C8: rule-set independence of aggregation -/

/-- A game bound to an arbitrary rule-set whose log is [PAT_RET_2(C)]. -/
def gamePat (rs : RuleSet) : Game :=
  { id := "g", opponent := "opp", dateISO := "2026-01-01", ruleSet := rs
    events := [evPatRet_C] }

/-- C8: the per-game aggregation consumes only the roster and the event
log, so two games with identical events but different rule-sets yield
identical statistics; a PAT_RET_2(C) log yields {patRet2 1, points 2}
for C under every rule-set variant. -/
theorem c8_ruleset_independence (players : List Player) (g g' : Game)
    (hev : g.events = g'.events) (_ : g.ruleSet ≠ g'.ruleSet) :
    gameStats players g = gameStats players g'
    ∧ ∀ rs : RuleSet,
        gameStats players (gamePat rs) "C"
          = some { emptyStats with patRet2 := 1, points := 2 } := by
  constructor
  · unfold gameStats
    rw [hev]
  · intro rs
    unfold gameStats
    rw [computeStats_apply]
    have hany : (gamePat rs).events.any (fun e => eventTouches e "C") = true := rfl
    rw [hany, Bool.or_true, if_pos rfl]
    rfl

/-- Two games identical except for the rule-set, for the C8 witness. -/
def gNFL : Game :=
  { id := "g2", opponent := "opp", dateISO := "2026-01-01",
    ruleSet := .NFL_FLAG, events := [evPatRet_C] }

def gFARM : Game :=
  { id := "g2", opponent := "opp", dateISO := "2026-01-01",
    ruleSet := .FARM_LEAGUE, events := [evPatRet_C] }

/-- Witness for C8 at the two concrete games. -/
theorem c8_witness : gameStats rosterAB gNFL = gameStats rosterAB gFARM :=
  (c8_ruleset_independence rosterAB gNFL gFARM rfl (by decide)).1

/-! ### C9: unknown event types -/

/-- C9 counterexample: an unknown-type event is not a perfect no-op for
the returned mapping — `ensure(e.playerId)` runs before the switch, so
the event's primary player receives a zero bucket that is absent when
the event is removed. -/
theorem c9_counterexample :
    computeStats [] [evUnknown_X] ≠ computeStats [] []
    ∧ computeStats [] [evUnknown_X] "x" = some emptyStats
    ∧ computeStats [] ([] : List StatEvent) "x" = none := by
  refine ⟨?_, rfl, rfl⟩
  intro h
  have hx := congrFun h "x"
  rw [show computeStats [] [evUnknown_X] "x" = some emptyStats from rfl,
    show computeStats [] ([] : List StatEvent) "x" = none from rfl] at hx
  cases hx

theorem sumDeltas_append (l1 l2 : List StatEvent) (p : String) :
    sumDeltas (l1 ++ l2) p = statAdd (sumDeltas l1 p) (sumDeltas l2 p) := by
  induction l1 with
  | nil => rw [List.nil_append]; exact (statAdd_empty_left _).symm
  | cons e l1 ih => rw [List.cons_append, sumDeltas_cons, sumDeltas_cons, ih, statAdd_assoc]

theorem eventDelta_unknown (e : StatEvent) (p : String)
    (hu : parseType e.type = .UNKNOWN) : eventDelta e p = emptyStats := by
  unfold eventDelta
  rw [hu]
  simp [secondaryDelta, primaryDelta, statAdd_empty_left]

theorem eventTouches_unknown (e : StatEvent) (p : String)
    (hu : parseType e.type = .UNKNOWN) : eventTouches e p = decide (p = e.playerId) := by
  unfold eventTouches
  rw [hu]
  simp

/-- C9 amended: an unknown-type event adds no delta anywhere — removing
it from the log leaves the mapping unchanged at every key, except that
the event's own playerId receives a zero bucket when it would otherwise
be absent; and the event list itself is an untouched input (aggregation
is pure), so the event stays in the log verbatim. -/
theorem c9_unknown_event_effect (players : List Player) (es1 es2 : List StatEvent)
    (e : StatEvent) (hu : parseType e.type = .UNKNOWN) (p : String) :
    computeStats players (es1 ++ e :: es2) p
      = if (computeStats players (es1 ++ es2) p).isSome = true ∨ p ≠ e.playerId
        then computeStats players (es1 ++ es2) p
        else some emptyStats := by
  simp only [computeStats_apply, List.any_append, List.any_cons,
    sumDeltas_append, sumDeltas_cons, eventDelta_unknown e p hu,
    eventTouches_unknown e p hu]
  cases hcon : (players.map Player.id).contains p <;>
    cases ha1 : es1.any (fun e => eventTouches e p) <;>
    cases ha2 : es2.any (fun e => eventTouches e p) <;>
    by_cases hp : p = e.playerId <;>
    simp_all [statAdd_empty_left, statAdd_empty_right, sumDeltas_of_not_touched]

/-- Witness for C9 amended: inserting the unknown event into the empty
log creates exactly the zero bucket for "x". -/
theorem c9_witness :
    computeStats [] ([] ++ evUnknown_X :: []) "x"
      = if (computeStats [] ([] ++ []) "x").isSome = true ∨ "x" ≠ evUnknown_X.playerId
        then computeStats [] ([] ++ []) "x"
        else some emptyStats :=
  c9_unknown_event_effect [] [] [] evUnknown_X rfl "x"

/-! ### C10: self-targeted pass events -/

/-- A self-targeted PASS_TD whose shared id is the empty string. -/
def evSelfTDEmpty : StatEvent :=
  { id := "e8", ts := 7, type := "PASS_TD", playerId := "", receiverId := some "" }

/-- C10 counterexample: when the shared id is the empty string — falsy in
JS — the `if (e.receiverId)` guard skips the secondary effect, so the one
bucket gets only the primary delta (points 6, no reception), not the
claimed combined delta (points 12). -/
theorem c10_counterexample :
    computeStats [] [evSelfTDEmpty] ""
        = some { emptyStats with passAtt := 1, passComp := 1, passTD := 1, points := 6 }
    ∧ computeStats [] [evSelfTDEmpty] ""
        ≠ some { emptyStats with
            passAtt := 1, passComp := 1, passTD := 1, rec' := 1, recTD := 1, points := 12 } := by
  refine ⟨rfl, ?_⟩
  decide

/-- C10 amended: for a PASS_COMP or PASS_TD event whose receiverId equals
its playerId and is non-empty (truthy), both the primary and the
secondary delta land in that single player's bucket; in particular a
self-targeted PASS_TD adds passAtt 1, passComp 1, passTD 1, rec 1,
recTD 1 and points 12 in one event. -/
theorem c10_self_pass_double_credit :
    (∀ (m : StatMap) (e : StatEvent) (p : String),
      (parseType e.type = .PASS_COMP ∨ parseType e.type = .PASS_TD) →
      e.playerId = p → e.receiverId = some p → p ≠ "" →
      applyEvent m e p = some (statAdd ((m p).getD emptyStats)
        (statAdd (primaryDelta (parseType e.type)) (secondaryDelta (parseType e.type)))))
    ∧ computeStats [] [evSelfTD] "S"
        = some { emptyStats with
            passAtt := 1, passComp := 1, passTD := 1, rec' := 1, recTD := 1, points := 12 } := by
  refine ⟨?_, rfl⟩
  intro m e p htag hp hr hne
  have hrv : recvId e = some p := by
    simp only [recvId, hr]
    rw [if_neg hne]
  rw [applyEvent_apply]
  have htouch : eventTouches e p = true := by simp [eventTouches, hp]
  rw [if_pos htouch]
  congr 2
  unfold eventDelta
  rw [if_pos hp.symm, hrv]
  rcases htag with h | h <;> rw [h] <;> simp

/-- Witness for C10 amended at the concrete self-targeted PASS_TD. -/
theorem c10_witness :
    applyEvent mEmpty evSelfTD "S" = some (statAdd ((mEmpty "S").getD emptyStats)
      (statAdd (primaryDelta (parseType evSelfTD.type))
        (secondaryDelta (parseType evSelfTD.type)))) :=
  c10_self_pass_double_credit.1 mEmpty evSelfTD "S" (Or.inr rfl) rfl rfl (by decide)
